import Mathlib

/-!
Verification development for the telemetry reporter of udpshooter.

The repository holds two versions of the same file: `src/reporter.go`
(current) and `src/unnamed/part_000` (an older revision of the same
reporter).  The current version is the authority; the older one is
embedded separately (with a `legacy` prefix) so the two report
generators can be compared.

Modelling conventions:
  - Go `float64` arithmetic is modelled over `ℚ` (exact rationals);
    division by zero in `ℚ` yields 0, so theorems that depend on a
    division carry the positivity hypotheses the runtime guarantees.
  - Go `int64` counters are modelled as `Int`, `uint32`/`uint64` as `Nat`.
  - `time.Time` instants are modelled as `Int` seconds.
  - Side-effecting code (lock operations, HTTP, logging) is modelled as
    a trace of abstract events in source order.
-/

/- ===== Counter-store data (fields as used by reporter.go; the struct
   declarations themselves live outside src, shapes follow spec section 3) ===== -/

/-- Modelled from the spec: per-source cumulative stats (`SourceStats`, spec
section 3 `SourceIPStat`); only its field names are visible in src via
`generateReport`. `LastActive` is an instant, modelled as `Int`. -/
structure SourceStats where
  BytesSent : Int
  PacketsSent : Int
  BandwidthMbps : ℚ
  LastActive : Int
deriving DecidableEq, Repr

/-- Modelled from the spec: the shared counter store (`Stats`, spec section 3);
only the fields read by `generateReport` are modelled. The source-IP map is an
association list. -/
structure Stats where
  bytesSent : Int
  packetsSent : Int
  sourceIPStats : List (String × SourceStats)
deriving DecidableEq, Repr

/-- The anonymous `TotalStats` struct embedded in `ReportData` (reporter.go
lines 31-36). -/
structure TotalStats where
  BytesSent : Int
  PacketsSent : Int
  BandwidthMbps : ℚ
  UptimeSeconds : ℚ
deriving DecidableEq, Repr

/- ===== generateReport, current version (src/reporter.go lines 131-182) ===== -/

/-- Total bandwidth computation of `generateReport` (reporter.go lines 139-142):
`if uptime > 0 { totalBandwidth = float64(bytesSent*8) / (uptime * 1000000) }`,
else the zero value. -/
def totalBandwidth (bytesSent : Int) (uptime : ℚ) : ℚ :=
  if 0 < uptime then ((bytesSent * 8 : Int) : ℚ) / (uptime * 1000000) else 0

/-- Per-source bandwidth computation of `generateReport` (reporter.go lines
151-154): computed only `if uptime > 0 && stats.BytesSent > 0`, else the zero
value. -/
def sourceBandwidth (uptime : ℚ) (s : SourceStats) : ℚ :=
  if 0 < uptime ∧ 0 < s.BytesSent
  then ((s.BytesSent * 8 : Int) : ℚ) / (uptime * 1000000) else 0

/-- The copied per-source entry built by `generateReport` (reporter.go lines
156-161). -/
def copySourceStats (uptime : ℚ) (s : SourceStats) : SourceStats :=
  { BytesSent := s.BytesSent
    PacketsSent := s.PacketsSent
    BandwidthMbps := sourceBandwidth uptime s
    LastActive := s.LastActive }

/-- The fresh `sourceIPStats` map built by the loop of `generateReport`
(reporter.go lines 148-162): one copied entry per entry of the store. -/
def snapshotSourceIPStats (uptime : ℚ) (src : List (String × SourceStats)) :
    List (String × SourceStats) :=
  src.map (fun p => (p.1, copySourceStats uptime p.2))

/-- The `TotalStats` part of the report document (reporter.go lines 168-178). -/
def reportTotalStats (st : Stats) (uptime : ℚ) : TotalStats :=
  { BytesSent := st.bytesSent
    PacketsSent := st.packetsSent
    BandwidthMbps := totalBandwidth st.bytesSent uptime
    UptimeSeconds := uptime }

/- ===== generateReport, older version (src/unnamed/part_000 lines 119-169) ===== -/

/-- Total bandwidth computation of the older `generateReport`
(part_000 lines 127-130). -/
def legacyTotalBandwidth (bytesSent : Int) (uptime : ℚ) : ℚ :=
  if 0 < uptime then ((bytesSent * 8 : Int) : ℚ) / (uptime * 1000000) else 0

/-- Per-source bandwidth computation of the older `generateReport`
(part_000 lines 139-142). -/
def legacySourceBandwidth (uptime : ℚ) (s : SourceStats) : ℚ :=
  if 0 < uptime ∧ 0 < s.BytesSent
  then ((s.BytesSent * 8 : Int) : ℚ) / (uptime * 1000000) else 0

/-- The copied per-source entry built by the older `generateReport`
(part_000 lines 144-149). -/
def legacyCopySourceStats (uptime : ℚ) (s : SourceStats) : SourceStats :=
  { BytesSent := s.BytesSent
    PacketsSent := s.PacketsSent
    BandwidthMbps := legacySourceBandwidth uptime s
    LastActive := s.LastActive }

/-- The fresh `sourceIPStats` map of the older `generateReport`
(part_000 lines 136-150). -/
def legacySnapshotSourceIPStats (uptime : ℚ) (src : List (String × SourceStats)) :
    List (String × SourceStats) :=
  src.map (fun p => (p.1, legacyCopySourceStats uptime p.2))

/-- The `TotalStats` part of the older report document (part_000 lines 155-165). -/
def legacyReportTotalStats (st : Stats) (uptime : ℚ) : TotalStats :=
  { BytesSent := st.bytesSent
    PacketsSent := st.packetsSent
    BandwidthMbps := legacyTotalBandwidth st.bytesSent uptime
    UptimeSeconds := uptime }

/- concrete store used by witnesses (the scenario of spec section 8:
bytesSent 125000, packetsSent 100, plus one zero-byte source) -/

def statsEx : Stats :=
  { bytesSent := 125000
    packetsSent := 100
    sourceIPStats :=
      [ ("10.0.0.1", { BytesSent := 125000, PacketsSent := 100, BandwidthMbps := 0, LastActive := 0 })
      , ("10.0.0.2", { BytesSent := 0, PacketsSent := 0, BandwidthMbps := 0, LastActive := 0 }) ] }

/- ===== System sampler (src/reporter.go lines 226-283) ===== -/

/-- `SystemStats` (reporter.go lines 16-25). `CPUCount`/`GoroutineCount` are Go
`int`, `GCCount` a `uint32`; the float fields are modelled over `ℚ`. -/
structure SystemStats where
  CPUUsage : ℚ
  MemoryUsage : ℚ
  CPUCount : Int
  MemoryUsageMB : ℚ
  MemoryTotalMB : ℚ
  GoroutineCount : Int
  GCCount : Nat
  GCPauseMs : ℚ
deriving DecidableEq, Repr

/-- The runtime readings consumed by one fresh computation of
`collectSystemStats`: `runtime.NumCPU()`, `runtime.NumGoroutine()`, and the
`runtime.MemStats` fields `Alloc`, `Sys`, `NumGC`, `PauseNs` (a fixed
`[256]uint64` circular buffer, hence `Fin 256 → Nat`).  The Go runtime
guarantees `1 ≤ NumCPU`, `1 ≤ NumGoroutine` and `NumGC < 2^32` (`uint32`). -/
structure SystemEnv where
  numCPU : Int
  numGoroutine : Int
  allocBytes : Nat
  sysBytes : Nat
  numGC : Nat
  pauseNs : Fin 256 → Nat

/-- CPU-usage estimate of `collectSystemStats` (reporter.go lines 246-252):
`cpuUsage := float64(numGoroutine) / float64(numCPU) * 10.0`, then capped at
100 from above and at 0 from below, in that order. -/
def cpuUsageEstimate (numGoroutine numCPU : Int) : ℚ :=
  let raw : ℚ := (numGoroutine : ℚ) / (numCPU : ℚ) * 10
  let capped : ℚ := if 100 < raw then 100 else raw
  if capped < 0 then 0 else capped

/-- The `PauseNs` index used by `collectSystemStats` (reporter.go line 262):
`(memStats.NumGC+255)%256`, where the sum is computed in `uint32` (wrapping at
`2^32`) before the reduction mod 256. -/
def gcPauseIndex (numGC : Nat) : Fin 256 :=
  ⟨(numGC + 255) % 2 ^ 32 % 256, by omega⟩

/-- GC pause computation of `collectSystemStats` (reporter.go lines 260-263):
zero unless `memStats.NumGC > 0`, otherwise
`float64(memStats.PauseNs[(memStats.NumGC+255)%256]) / 1000000`. -/
def gcPauseMsOf (env : SystemEnv) : ℚ :=
  if 0 < env.numGC then ((env.pauseNs (gcPauseIndex env.numGC) : ℚ)) / 1000000 else 0

/-- The fresh (cache-miss) computation of `collectSystemStats` (reporter.go
lines 237-274).  Memory figures: `Alloc`/`Sys` scaled to MB and their ratio as
a percentage (in `ℚ`, a zero `Sys` yields 0 instead of a float NaN; the claims
do not touch that corner). -/
def freshSystemStats (env : SystemEnv) : SystemStats :=
  let memoryUsageMB : ℚ := (env.allocBytes : ℚ) / 1024 / 1024
  let memoryTotalMB : ℚ := (env.sysBytes : ℚ) / 1024 / 1024
  { CPUUsage := cpuUsageEstimate env.numGoroutine env.numCPU
    MemoryUsage := memoryUsageMB / memoryTotalMB * 100
    CPUCount := env.numCPU
    MemoryUsageMB := memoryUsageMB
    MemoryTotalMB := memoryTotalMB
    GoroutineCount := env.numGoroutine
    GCCount := env.numGC
    GCPauseMs := gcPauseMsOf env }

/-- The sampler's cache state (reporter.go lines 56-57): `lastCPUTime` and
`lastCPUStats`.  Instants are `Int` seconds; Go's zero `time.Time` lies far in
the past, so the initial state carries a very negative `lastSampleTime`. -/
structure SamplerState where
  lastSampleTime : Int
  cachedSample : SystemStats

/-- `collectSystemStats` (reporter.go lines 227-283) as a state transformer:
if `now - lastCPUTime < 30` seconds, return the cached sample and leave the
cache untouched; otherwise recompute from the runtime readings `env` and store
the fresh sample with the current instant. -/
def collectSystemStats (st : SamplerState) (now : Int) (env : SystemEnv) :
    SystemStats × SamplerState :=
  if now - st.lastSampleTime < 30 then (st.cachedSample, st)
  else
    let s := freshSystemStats env
    (s, { lastSampleTime := now, cachedSample := s })

/-- Go zero value of `SystemStats`, the cached sample before any recomputation. -/
def zeroSystemStats : SystemStats :=
  { CPUUsage := 0, MemoryUsage := 0, CPUCount := 0, MemoryUsageMB := 0
    MemoryTotalMB := 0, GoroutineCount := 0, GCCount := 0, GCPauseMs := 0 }

/-- Initial sampler state: zero-valued cache and a `lastCPUTime` far enough in
the past that the first call always recomputes (Go's zero `time.Time`). -/
def samplerInit : SamplerState :=
  { lastSampleTime := -(10 ^ 18), cachedSample := zeroSystemStats }

/- concrete runtime readings used by witnesses and counterexamples -/

def envA : SystemEnv :=
  { numCPU := 4, numGoroutine := 5, allocBytes := 1048576, sysBytes := 4194304
    numGC := 1, pauseNs := fun _ => 3000000 }

def envB : SystemEnv :=
  { numCPU := 4, numGoroutine := 6, allocBytes := 1048576, sysBytes := 4194304
    numGC := 2, pauseNs := fun _ => 3000000 }

/- ===== NewReporter interval clamp (src/reporter.go lines 67-92) ===== -/

/-- Modelled from the spec: the `Report` configuration struct is declared
outside src; spec section 6 gives it an interval in whole seconds and a
destination URL.  The interval is modelled as an unbounded integer of
seconds. -/
structure Report where
  Interval : Int
  URL : String

/-- The effective interval chosen by `NewReporter` (reporter.go lines 70-74),
in nanoseconds (Go `time.Duration`): `time.Duration(config.Interval) *
time.Second`, replaced by `10 * time.Minute` when non-positive.  The function
is total and returns no error value, mirroring `NewReporter`'s signature. -/
def effectiveIntervalNs (config : Report) : Int :=
  let interval := config.Interval * 1000000000
  if interval ≤ 0 then 600 * 1000000000 else interval

/- ===== Event-trace model of generateReport / sendToRemote / reportLoop
   (src/reporter.go lines 113-224 and 286-312) ===== -/

/-- logrus levels used by the reporter. -/
inductive LogLevel
  | debug | info | warn | error
deriving DecidableEq, Repr

/-- Outcome of one delivery attempt in `sendToRemote`:
`http.NewRequestWithContext` fails, `httpClient.Do` fails, or an HTTP
response with the given status code arrives. -/
inductive SendOutcome
  | requestError
  | transportError
  | response (status : Int)
deriving DecidableEq, Repr

/-- Abstract side effects of one tick, in source order. -/
inductive Ev
  | acquireRLock
  | releaseRLock
  | readStore
  | sampleSystem
  | serialize
  | httpPost
  | logLine (lvl : LogLevel)
deriving DecidableEq, Repr

/-- Side effects of `sendToRemote` (reporter.go lines 286-312): a failed
request construction only logs an error; otherwise exactly one POST is
issued, followed by one log line — error on transport failure (line 301),
debug on a 2xx status (line 308), warning otherwise (line 310).  In every
case the function returns: no retry, no queuing. -/
def sendToRemoteEvents : SendOutcome → List Ev
  | SendOutcome.requestError => [Ev.logLine LogLevel.error]
  | SendOutcome.transportError => [Ev.httpPost, Ev.logLine LogLevel.error]
  | SendOutcome.response s =>
      [Ev.httpPost,
       if 200 ≤ s ∧ s < 300 then Ev.logLine LogLevel.debug
       else Ev.logLine LogLevel.warn]

/-- Everything `generateReport` does between `RLock()` and the deferred
`RUnlock()` (reporter.go lines 135-221): read the totals, sample the system,
copy the per-source map, marshal to JSON, send when a URL is configured, then
the log lines — header and totals, one per source, and the resource summary.
JSON marshalling of this document cannot fail in Go, so it is modelled as
always succeeding. -/
def reportBody (url : String) (nSources : Nat) (o : SendOutcome) : List Ev :=
  [Ev.readStore, Ev.sampleSystem, Ev.readStore, Ev.serialize]
  ++ (if url = "" then [] else sendToRemoteEvents o)
  ++ [Ev.logLine LogLevel.info, Ev.logLine LogLevel.info]
  ++ List.replicate nSources (Ev.logLine LogLevel.info)
  ++ [Ev.logLine LogLevel.info]

/-- The full event trace of one `generateReport` call (reporter.go lines
131-224): `r.stats.mu.RLock()` on entry, `defer r.stats.mu.RUnlock()` runs
when the function returns, after everything else. -/
def generateReportEvents (url : String) (nSources : Nat) (o : SendOutcome) : List Ev :=
  Ev.acquireRLock :: (reportBody url nSources o ++ [Ev.releaseRLock])

/-- The counter-store read lock is held just before event `i` of the trace:
strictly more acquisitions than releases among the first `i` events. -/
def lockHeldAt (tr : List Ev) (i : Nat) : Prop :=
  (tr.take i).countP (fun e => decide (e = Ev.releaseRLock))
    < (tr.take i).countP (fun e => decide (e = Ev.acquireRLock))

instance (tr : List Ev) (i : Nat) : Decidable (lockHeldAt tr i) := by
  unfold lockHeldAt; infer_instance

/-- One resolution of the `select` in `reportLoop` (reporter.go lines
120-127): either the ticker fires (and the tick's delivery has outcome `o`),
or the cancellation of `r.ctx` is observed. -/
inductive LoopEvent
  | tick (o : SendOutcome)
  | cancelled
deriving DecidableEq, Repr

/-- `reportLoop` (reporter.go lines 114-128) over a chronological list of
select resolutions: observing `ctx.Done()` returns at once (the deferred
`wg.Done()` then releases the `wg.Wait()` inside `Stop()`); a ticker fire runs
`generateReport` synchronously and continues.  Result: the traces of the
reports emitted, and whether the loop has exited (reached `return`).  An
exhausted list means the loop is still parked in the `select`. -/
def reportLoopRun (url : String) (n : Nat) : List LoopEvent → List (List Ev) × Bool
  | [] => ([], false)
  | LoopEvent.cancelled :: _ => ([], true)
  | LoopEvent.tick o :: rest =>
      let r := reportLoopRun url n rest
      (generateReportEvents url n o :: r.1, r.2)

/-- The select resolutions a run actually processes: everything before the
first observed cancellation. -/
def beforeCancel : List LoopEvent → List LoopEvent
  | [] => []
  | LoopEvent.cancelled :: _ => []
  | LoopEvent.tick o :: rest => LoopEvent.tick o :: beforeCancel rest

/- ===== Theorems ===== -/

/-- Claim C1: for every snapshot tick with uptime > 0 and every bytes value
≥ 0 the reported bandwidth equals bytes·8/(uptime·10^6), for the totals and
for each per-source entry; for uptime ≤ 0 every bandwidth field is 0; and a
source with 0 bytes is still emitted as an entry with bandwidth 0. -/
theorem bandwidth_report_correct (st : Stats) (u : ℚ) :
    ((0 < u → 0 ≤ st.bytesSent →
        (reportTotalStats st u).BandwidthMbps = (st.bytesSent : ℚ) * 8 / (u * 1000000))
      ∧ (0 < u → ∀ p ∈ snapshotSourceIPStats u st.sourceIPStats, 0 ≤ p.2.BytesSent →
          p.2.BandwidthMbps = (p.2.BytesSent : ℚ) * 8 / (u * 1000000)))
    ∧ (u ≤ 0 → (reportTotalStats st u).BandwidthMbps = 0
        ∧ ∀ p ∈ snapshotSourceIPStats u st.sourceIPStats, p.2.BandwidthMbps = 0)
    ∧ ((snapshotSourceIPStats u st.sourceIPStats).length = st.sourceIPStats.length
        ∧ ∀ p ∈ st.sourceIPStats,
            (p.1, copySourceStats u p.2) ∈ snapshotSourceIPStats u st.sourceIPStats
            ∧ (p.2.BytesSent = 0 → (copySourceStats u p.2).BandwidthMbps = 0)) := by
  refine ⟨⟨?_, ?_⟩, ?_, ?_, ?_⟩
  · intro hu _
    simp only [reportTotalStats, totalBandwidth, if_pos hu]
    push_cast
    ring
  · intro hu p hp hb
    obtain ⟨q, hq, rfl⟩ := List.mem_map.1 hp
    simp only [copySourceStats, sourceBandwidth] at hb ⊢
    by_cases hb0 : 0 < q.2.BytesSent
    · rw [if_pos ⟨hu, hb0⟩]
      push_cast
      ring
    · have hz : q.2.BytesSent = 0 := le_antisymm (not_lt.1 hb0) hb
      rw [if_neg (by simp [hb0])]
      simp [hz]
  · intro hu
    constructor
    · simp [reportTotalStats, totalBandwidth, not_lt.2 hu]
    · intro p hp
      obtain ⟨q, hq, rfl⟩ := List.mem_map.1 hp
      simp [copySourceStats, sourceBandwidth, not_lt.2 hu]
  · simp [snapshotSourceIPStats]
  · intro p hp
    refine ⟨List.mem_map_of_mem _ hp, ?_⟩
    intro h0
    simp [copySourceStats, sourceBandwidth, h0]

/-- Witness for C1: the scenario of spec section 8 — 125000 bytes over 1
second gives bandwidth 125000·8/10^6 = 1 Mbps, and a zero-byte source keeps a
zero rate. -/
theorem bandwidth_report_correct_witness :
    (reportTotalStats statsEx 1).BandwidthMbps = (statsEx.bytesSent : ℚ) * 8 / (1 * 1000000)
    ∧ (copySourceStats 1
        { BytesSent := 0, PacketsSent := 0, BandwidthMbps := 0, LastActive := 0 }).BandwidthMbps = 0 :=
  ⟨(bandwidth_report_correct statsEx 1).1.1 (by norm_num) (by decide),
   ((bandwidth_report_correct statsEx 1).2.2.2
      ("10.0.0.2", { BytesSent := 0, PacketsSent := 0, BandwidthMbps := 0, LastActive := 0 })
      (by simp [statsEx])).2 rfl⟩

/-- Claim C10: the older (part_000) and newer (reporter.go) report generators
compute identical total stats and identical per-source snapshot maps for every
counter-store state and every uptime. -/
theorem legacy_new_report_equiv (st : Stats) (u : ℚ) :
    legacyReportTotalStats st u = reportTotalStats st u
    ∧ legacySnapshotSourceIPStats u st.sourceIPStats
        = snapshotSourceIPStats u st.sourceIPStats := by
  constructor
  · rfl
  · rfl

/-- Claim C2: the sampler reports gcPauseMs = 0 whenever gcCount = 0, and for
gcCount ≥ 1 it reports the pause stored at index (gcCount − 1) mod 256 of the
256-slot circular buffer, the index always in bounds (the buffer is indexed
through `Fin 256`). -/
theorem gc_pause_guarded (env : SystemEnv) :
    (env.numGC = 0 → (freshSystemStats env).GCPauseMs = 0)
    ∧ (1 ≤ env.numGC → env.numGC < 2 ^ 32 →
        (gcPauseIndex env.numGC).val = (env.numGC - 1) % 256
        ∧ (freshSystemStats env).GCPauseMs
            = ((env.pauseNs ⟨(env.numGC - 1) % 256, by omega⟩ : Nat) : ℚ) / 1000000) := by
  constructor
  · intro h
    simp [freshSystemStats, gcPauseMsOf, h]
  · intro h1 h2
    have hidx : gcPauseIndex env.numGC = ⟨(env.numGC - 1) % 256, by omega⟩ := by
      apply Fin.ext
      simp only [gcPauseIndex]
      omega
    refine ⟨by rw [hidx], ?_⟩
    simp only [freshSystemStats, gcPauseMsOf, if_pos (by omega : 0 < env.numGC), hidx]

/-- Witness for C2: one completed GC cycle whose recorded pause is 3000000 ns
is reported as slot 0 of the buffer, 3 ms. -/
theorem gc_pause_guarded_witness :
    (gcPauseIndex envA.numGC).val = 0
    ∧ (freshSystemStats envA).GCPauseMs = ((3000000 : Nat) : ℚ) / 1000000 :=
  ⟨((gc_pause_guarded envA).2 (by decide) (by decide)).1,
   ((gc_pause_guarded envA).2 (by decide) (by decide)).2⟩

/-- Claim C9: on every fresh system sample, the CPU-usage estimate equals the
concurrent-task count over the core count times 10, clamped into [0, 100].
The core count is at least 1 (guaranteed by the runtime), which keeps the
rational-division model aligned with the float code. -/
theorem cpu_usage_clamped (env : SystemEnv) (_hc : 1 ≤ env.numCPU) :
    (freshSystemStats env).CPUUsage
      = max 0 (min ((env.numGoroutine : ℚ) / (env.numCPU : ℚ) * 10) 100) := by
  simp only [freshSystemStats, cpuUsageEstimate]
  set x : ℚ := (env.numGoroutine : ℚ) / (env.numCPU : ℚ) * 10 with hx
  by_cases h1 : 100 < x
  · rw [if_pos h1, if_neg (by norm_num)]
    rw [min_eq_right (le_of_lt h1), max_eq_right (by norm_num : (0 : ℚ) ≤ 100)]
  · rw [if_neg h1]
    by_cases h2 : x < 0
    · rw [if_pos h2]
      rw [min_eq_left (le_trans (le_of_lt h2) (by norm_num)), max_eq_left (le_of_lt h2)]
    · rw [if_neg h2, min_eq_left (not_lt.1 h1), max_eq_right (not_lt.1 h2)]

/-- Witness for C9: 5 goroutines on 4 cores estimate 5/4·10 = 12.5, inside the
clamp range. -/
theorem cpu_usage_clamped_witness :
    (1 : Int) ≤ envA.numCPU
    ∧ (freshSystemStats envA).CPUUsage
        = max 0 (min ((envA.numGoroutine : ℚ) / (envA.numCPU : ℚ) * 10) 100) :=
  ⟨by decide, cpu_usage_clamped envA (by decide)⟩

/-- Claim C7: a non-positive configured interval (in seconds) yields the
default effective interval of 10 minutes (600·10^9 ns); the correction is a
plain return value, not an error. -/
theorem nonpositive_interval_default (c : Report) (h : c.Interval ≤ 0) :
    effectiveIntervalNs c = 600 * 1000000000 := by
  show (if c.Interval * 1000000000 ≤ 0 then 600 * 1000000000
        else c.Interval * 1000000000) = 600 * 1000000000
  rw [if_pos (mul_nonpos_of_nonpos_of_nonneg h (by norm_num))]

/-- Witness for C7: interval configured as −5 seconds gives 10 minutes. -/
theorem nonpositive_interval_default_witness :
    effectiveIntervalNs { Interval := -5, URL := "" } = 600 * 1000000000 :=
  nonpositive_interval_default { Interval := -5, URL := "" } (by decide)

/- C3 concrete call sequence: a recomputation at t = 1000, a cache hit at
t = 1029, a recomputation at t = 1031 -/

def samplerCall1 : SystemStats × SamplerState := collectSystemStats samplerInit 1000 envA

def samplerCall2 : SystemStats × SamplerState := collectSystemStats samplerCall1.2 1029 envB

def samplerCall3 : SystemStats × SamplerState := collectSystemStats samplerCall2.2 1031 envB

/-- Counterexample to C3 as stated: the calls at t = 1029 and t = 1031 are
2 seconds apart (< 30 s), yet they return different samples — the first is a
cache hit on the t = 1000 sample (5 goroutines), while the second falls past
the 30-second TTL measured from the last recomputation (not from the previous
call) and returns a fresh sample (6 goroutines). -/
theorem sampler_calls_close_differ :
    ((1031 : Int) - 1029 < 30)
    ∧ samplerCall2.1.GoroutineCount = 5
    ∧ samplerCall3.1.GoroutineCount = 6
    ∧ samplerCall2.1 ≠ samplerCall3.1 := by
  refine ⟨by decide, by decide, by decide, ?_⟩
  intro h
  have h5 : samplerCall2.1.GoroutineCount = 5 := by decide
  rw [h] at h5
  have h6 : samplerCall3.1.GoroutineCount = 6 := by decide
  rw [h6] at h5
  exact absurd h5 (by decide)

/-- Claim C3 amended: a call less than 30 seconds after the last sample time
returns the cached sample with the cache untouched; a call 30 seconds or more
after the last sample time recomputes and updates the cache; hence two calls
less than 30 seconds apart of which the first recomputed return identical
values. -/
theorem sampler_cache_ttl :
    (∀ (st : SamplerState) (t : Int) (env : SystemEnv), t - st.lastSampleTime < 30 →
        collectSystemStats st t env = (st.cachedSample, st))
    ∧ (∀ (st : SamplerState) (t : Int) (env : SystemEnv), 30 ≤ t - st.lastSampleTime →
        collectSystemStats st t env
          = (freshSystemStats env,
             { lastSampleTime := t, cachedSample := freshSystemStats env }))
    ∧ (∀ (st : SamplerState) (t1 t2 : Int) (e1 e2 : SystemEnv),
        30 ≤ t1 - st.lastSampleTime → t2 - t1 < 30 →
        (collectSystemStats ((collectSystemStats st t1 e1).2) t2 e2).1
          = (collectSystemStats st t1 e1).1) := by
  refine ⟨?_, ?_, ?_⟩
  · intro st t env h
    simp [collectSystemStats, h]
  · intro st t env h
    simp [collectSystemStats, not_lt.mpr h]
  · intro st t1 t2 e1 e2 h1 h2
    have hfst : collectSystemStats st t1 e1
        = (freshSystemStats e1,
           { lastSampleTime := t1, cachedSample := freshSystemStats e1 }) := by
      simp [collectSystemStats, not_lt.mpr h1]
    rw [hfst]
    simp [collectSystemStats, h2]

/-- Witness for C3 amended: a recomputation at t = 1000 stamps the cache, and
the call at t = 1029 (29 s later) returns the same sample. -/
theorem sampler_cache_ttl_witness :
    (collectSystemStats samplerInit 1000 envA).2.lastSampleTime = 1000
    ∧ (collectSystemStats ((collectSystemStats samplerInit 1000 envA).2) 1029 envB).1
        = (collectSystemStats samplerInit 1000 envA).1 :=
  ⟨by rw [sampler_cache_ttl.2.1 samplerInit 1000 envA (by decide)],
   sampler_cache_ttl.2.2 samplerInit 1000 1029 envA envB (by decide) (by decide)⟩

/- shared helper lemmas about the event traces -/

lemma acquire_not_mem_send (o : SendOutcome) :
    Ev.acquireRLock ∉ sendToRemoteEvents o := by
  rcases o with _ | _ | s
  · simp [sendToRemoteEvents]
  · simp [sendToRemoteEvents]
  · simp only [sendToRemoteEvents, List.mem_cons, List.not_mem_nil, or_false]
    split_ifs <;> simp

lemma release_not_mem_send (o : SendOutcome) :
    Ev.releaseRLock ∉ sendToRemoteEvents o := by
  rcases o with _ | _ | s
  · simp [sendToRemoteEvents]
  · simp [sendToRemoteEvents]
  · simp only [sendToRemoteEvents, List.mem_cons, List.not_mem_nil, or_false]
    split_ifs <;> simp

lemma httpPost_mem_send (o : SendOutcome) (h : o ≠ SendOutcome.requestError) :
    Ev.httpPost ∈ sendToRemoteEvents o := by
  rcases o with _ | _ | s
  · exact absurd rfl h
  · simp [sendToRemoteEvents]
  · simp [sendToRemoteEvents]

lemma acquire_not_mem_body (url : String) (n : Nat) (o : SendOutcome) :
    Ev.acquireRLock ∉ reportBody url n o := by
  by_cases hu : url = "" <;>
    simp [reportBody, hu, List.mem_replicate, acquire_not_mem_send o]

lemma release_not_mem_body (url : String) (n : Nat) (o : SendOutcome) :
    Ev.releaseRLock ∉ reportBody url n o := by
  by_cases hu : url = "" <;>
    simp [reportBody, hu, List.mem_replicate, release_not_mem_send o]

lemma httpPost_not_mem_body_empty (n : Nat) (o : SendOutcome) :
    Ev.httpPost ∉ reportBody "" n o := by
  simp [reportBody, List.mem_replicate]

lemma info_mem_body (url : String) (n : Nat) (o : SendOutcome) :
    Ev.logLine LogLevel.info ∈ reportBody url n o := by
  simp [reportBody]

/- C4 concrete trace: configured URL, one source, successful delivery -/

def trEx : List Ev :=
  generateReportEvents "http://collector.example" 1 (SendOutcome.response 200)

/-- Counterexample to C4 as stated: in the trace of one tick with a configured
destination, the JSON serialization (index 4), the HTTP delivery (index 5)
and a log emission (index 6) all happen while the read lock of the counter
store is held — the `defer RUnlock()` of `generateReport` only runs at
function exit. -/
theorem rlock_held_during_send :
    trEx[4]? = some Ev.serialize ∧ lockHeldAt trEx 4
    ∧ trEx[5]? = some Ev.httpPost ∧ lockHeldAt trEx 5
    ∧ trEx[6]? = some (Ev.logLine LogLevel.debug) ∧ lockHeldAt trEx 6 := by
  decide

/-- Claim C4 amended: during every tick the counter-store read lock is
acquired first, released last, and held across everything in between — the
snapshot copy, the JSON serialization, the HTTP delivery when configured, and
the log emission. -/
theorem rlock_spans_entire_tick (url : String) (n : Nat) (o : SendOutcome) :
    generateReportEvents url n o
      = Ev.acquireRLock :: (reportBody url n o ++ [Ev.releaseRLock])
    ∧ Ev.acquireRLock ∉ reportBody url n o
    ∧ Ev.releaseRLock ∉ reportBody url n o
    ∧ Ev.serialize ∈ reportBody url n o
    ∧ (url ≠ "" → o ≠ SendOutcome.requestError → Ev.httpPost ∈ reportBody url n o)
    ∧ Ev.logLine LogLevel.info ∈ reportBody url n o
    ∧ (∀ i, 1 ≤ i → i ≤ (reportBody url n o).length →
        lockHeldAt (generateReportEvents url n o) i) := by
  refine ⟨rfl, acquire_not_mem_body url n o, release_not_mem_body url n o, ?_, ?_,
    info_mem_body url n o, ?_⟩
  · simp [reportBody]
  · intro hu ho
    simp [reportBody, hu, httpPost_mem_send o ho]
  · intro i h1 h2
    unfold lockHeldAt generateReportEvents
    obtain ⟨j, rfl⟩ : ∃ j, i = j + 1 := ⟨i - 1, by omega⟩
    rw [List.take_succ_cons, List.take_append_of_le_length (by omega)]
    have hrel : ((reportBody url n o).take j).countP
        (fun e => decide (e = Ev.releaseRLock)) = 0 := by
      refine List.countP_eq_zero.mpr ?_
      intro a ha
      have : a ∈ reportBody url n o := List.take_subset j _ ha
      simp only [decide_eq_true_eq]
      intro hrfl
      exact release_not_mem_body url n o (hrfl ▸ this)
    simp [List.countP_cons, hrel]

/-- Witness for C4 amended: with a configured destination and a 200 response,
the HTTP POST happens inside the lock-held section (position 5 of the tick
trace). -/
theorem rlock_spans_entire_tick_witness :
    Ev.httpPost ∈ reportBody "http://collector.example" 1 (SendOutcome.response 200)
    ∧ lockHeldAt
        (generateReportEvents "http://collector.example" 1 (SendOutcome.response 200)) 5 :=
  ⟨(rlock_spans_entire_tick "http://collector.example" 1 (SendOutcome.response 200)).2.2.2.2.1
      (by decide) (by decide),
   (rlock_spans_entire_tick "http://collector.example" 1 (SendOutcome.response 200)).2.2.2.2.2.2
      5 (by decide) (by decide)⟩

/-- Claim C5: the loop exits exactly when it observes the cancellation (so the
join in `Stop()` returns and nothing runs afterwards); every emitted report
comes from a tick processed strictly before the cancellation was observed;
and a cancellation observed before the first tick — `Start()` immediately
followed by `Stop()` — terminates the loop with zero reports. -/
theorem stop_join_zero_reports (url : String) (n : Nat) :
    (∀ evs : List LoopEvent,
        ((reportLoopRun url n evs).2 = true ↔ LoopEvent.cancelled ∈ evs))
    ∧ (∀ evs : List LoopEvent,
        (reportLoopRun url n evs).1 = (reportLoopRun url n (beforeCancel evs)).1)
    ∧ (∀ evs : List LoopEvent,
        reportLoopRun url n (LoopEvent.cancelled :: evs) = ([], true)) := by
  refine ⟨?_, ?_, ?_⟩
  · intro evs
    induction evs with
    | nil => simp [reportLoopRun]
    | cons e rest ih =>
      cases e with
      | cancelled => simp [reportLoopRun]
      | tick o => simpa [reportLoopRun] using ih
  · intro evs
    induction evs with
    | nil => simp [beforeCancel]
    | cons e rest ih =>
      cases e with
      | cancelled => simp [reportLoopRun, beforeCancel]
      | tick o => simp [reportLoopRun, beforeCancel, ih]
  · intro evs
    rfl

/-- Witness for C5: immediate cancellation gives an exited loop and an empty
report list. -/
theorem stop_join_zero_reports_witness :
    reportLoopRun "http://collector.example" 1 [LoopEvent.cancelled] = ([], true)
    ∧ (reportLoopRun "http://collector.example" 1 [LoopEvent.cancelled]).2 = true :=
  ⟨(stop_join_zero_reports "http://collector.example" 1).2.2 [],
   ((stop_join_zero_reports "http://collector.example" 1).1 [LoopEvent.cancelled]).2
      (by decide)⟩

/-- Claim C6: a non-2xx response yields one POST and one warning log line, a
transport failure one POST and one error log line; a delivery attempt never
issues more than one POST (no retry); and a tick with any delivery outcome
leaves the processing of all later select resolutions unchanged — the next
scheduled tick executes normally. -/
theorem delivery_failure_nonfatal :
    (∀ s : Int, ¬(200 ≤ s ∧ s < 300) →
        sendToRemoteEvents (SendOutcome.response s)
          = [Ev.httpPost, Ev.logLine LogLevel.warn])
    ∧ sendToRemoteEvents SendOutcome.transportError
        = [Ev.httpPost, Ev.logLine LogLevel.error]
    ∧ (∀ o : SendOutcome,
        (sendToRemoteEvents o).countP (fun e => decide (e = Ev.httpPost)) ≤ 1)
    ∧ (∀ (url : String) (n : Nat) (o : SendOutcome) (evs : List LoopEvent),
        reportLoopRun url n (LoopEvent.tick o :: evs)
          = (generateReportEvents url n o :: (reportLoopRun url n evs).1,
             (reportLoopRun url n evs).2)) := by
  refine ⟨?_, rfl, ?_, ?_⟩
  · intro s h
    simp [sendToRemoteEvents, h]
  · intro o
    rcases o with _ | _ | s
    · simp [sendToRemoteEvents, List.countP_cons]
    · simp [sendToRemoteEvents, List.countP_cons]
    · simp only [sendToRemoteEvents]
      split_ifs <;> simp [List.countP_cons]
  · intro url n o evs
    rfl

/-- Witness for C6: an HTTP 500 response produces exactly one POST followed by
one warning line. -/
theorem delivery_failure_nonfatal_witness :
    sendToRemoteEvents (SendOutcome.response 500)
      = [Ev.httpPost, Ev.logLine LogLevel.warn] :=
  delivery_failure_nonfatal.1 500 (by decide)

/-- Claim C8: with no destination configured (empty URL) a tick performs no
HTTP POST yet still emits its log lines, and the same holds for every report
trace produced by the loop. -/
theorem empty_url_no_network (n : Nat) (o : SendOutcome) (evs : List LoopEvent) :
    Ev.httpPost ∉ generateReportEvents "" n o
    ∧ Ev.logLine LogLevel.info ∈ generateReportEvents "" n o
    ∧ ∀ tr ∈ (reportLoopRun "" n evs).1,
        Ev.httpPost ∉ tr ∧ Ev.logLine LogLevel.info ∈ tr := by
  refine ⟨?_, ?_, ?_⟩
  · simp [generateReportEvents, httpPost_not_mem_body_empty n o]
  · simp [generateReportEvents, info_mem_body "" n o]
  · induction evs with
    | nil => simp [reportLoopRun]
    | cons e rest ih =>
      cases e with
      | cancelled => simp [reportLoopRun]
      | tick o2 =>
        intro tr htr
        simp only [reportLoopRun, List.mem_cons] at htr
        rcases htr with rfl | htr
        · exact ⟨by simp [generateReportEvents, httpPost_not_mem_body_empty n o2],
                 by simp [generateReportEvents, info_mem_body "" n o2]⟩
        · exact ih tr htr

/-- Witness for C8: one tick of the loop with empty URL and one source emits a
trace with log lines and without any POST. -/
theorem empty_url_no_network_witness :
    Ev.httpPost ∉ generateReportEvents "" 1 (SendOutcome.response 200)
    ∧ (Ev.httpPost ∉ generateReportEvents "" 1 (SendOutcome.response 200)
        ∧ Ev.logLine LogLevel.info ∈ generateReportEvents "" 1 (SendOutcome.response 200)) :=
  ⟨(empty_url_no_network 1 (SendOutcome.response 200) []).1,
   (empty_url_no_network 1 (SendOutcome.response 200)
        [LoopEvent.tick (SendOutcome.response 200)]).2.2
      (generateReportEvents "" 1 (SendOutcome.response 200)) (by decide)⟩
